import Mathlib

/-!
Verification of the `auto-withdraw` pending-transaction race engine
(`src/main.go`) against its natural-language specification.

The Go program is embedded shallowly:
* machine integers and `big.Int` values become `Nat` / `Int` (all the
  arithmetic in `ScanPending` is on non-negative decoded transaction fields,
  where Go's `big.Int.Div` — Euclidean division — and truncating division
  coincide with `Nat` division);
* the network is an oracle: each pending-hash event carries the answers the
  node / crypto library would give (fetched transaction, recovered sender,
  success of signing and of broadcast);
* Go pointers are modelled as an allocation identity paired with the pointee
  value, because `ScanPending` compares two `*common.Address` pointers with
  `!=`, which in Go compares allocation identities, not the addresses.
-/

/-- An account address (`common.Address`), abstracted to a number. -/
abbrev Address := Nat

/-- A secp256k1 private key (`*ecdsa.PrivateKey`), abstracted to its scalar. -/
abbrev PrivateKey := Nat

/-- Model of a Go pointer: an allocation identity together with the pointee
value.  Go's `==` / `!=` on pointers compares allocation identities only. -/
structure Ptr (α : Type) where
  id : Nat
  val : α
  deriving Repr, DecidableEq

/-- `type Accounts map[common.Address]*ecdsa.PrivateKey`, as an association
list with unique keys (map semantics: `insert` overwrites). -/
abbrev Accounts := List (Address × PrivateKey)

/-- Go map lookup `c.accounts[from]`. -/
def Accounts.lookup : Accounts → Address → Option PrivateKey
  | [], _ => none
  | (k, v) :: rest, addr => if k = addr then some v else Accounts.lookup rest addr

/-- Go map assignment `accounts[addr] = pk`: overwrites an existing entry for
`addr`, otherwise adds a new one. -/
def Accounts.insert : Accounts → Address → PrivateKey → Accounts
  | [], addr, pk => [(addr, pk)]
  | (k, v) :: rest, addr, pk =>
    if k = addr then (addr, pk) :: rest else (k, v) :: Accounts.insert rest addr pk

/-- The fields of an observed pending transaction (`*types.Transaction`) that
`ScanPending` reads: `Nonce()`, `Gas()`, `GasPrice()`, `Value()`, and the
recipient (`nil` for contract creation).  All are non-negative in a decoded
transaction (RLP integers are unsigned). -/
structure Tx where
  nonce : Nat
  gas : Nat
  gasPrice : Nat
  value : Nat
  To : Option Address
  deriving Repr, DecidableEq

/-- `types.LegacyTx` as constructed by `ScanPending`.  `value` is an `Int`
because `new(big.Int).Sub(tx.Value(), additionalFees)` can be negative. -/
structure LegacyTx where
  To : Option Address
  value : Int
  gas : Nat
  gasPrice : Nat
  nonce : Nat
  deriving Repr, DecidableEq

/-- The `Chain` state `ScanPending` uses: the shared account registry and the
receiver, stored — as in the Go struct — behind a pointer (`reciever
*common.Address`), whose allocation identity matters for line 85. -/
structure Chain where
  accounts : Accounts
  reciever : Ptr Address
  deriving Repr, DecidableEq

/-- The replacement transaction built in the body of the `if` on lines 85–95:

    gasPrice := (tx.GasPrice() / 100) * 11        -- the fee bump
    additionalFees := gasPrice * tx.Gas()
    replacementTx := &types.LegacyTx{
      To: c.reciever, Value: tx.Value() - additionalFees,
      Gas: tx.Gas(), GasPrice: gasPrice + tx.GasPrice(), Nonce: tx.Nonce() }
-/
def buildReplacement (c : Chain) (tx : Tx) : LegacyTx :=
  let gasPrice := (tx.gasPrice / 100) * 11
  let additionalFees := gasPrice * tx.gas
  { To := some c.reciever.val
    value := (tx.value : Int) - (additionalFees : Int)
    gas := tx.gas
    gasPrice := gasPrice + tx.gasPrice
    nonce := tx.nonce }

/-- The oracle for one pending-transaction-hash event: what the node and the
crypto library answer at each step of the per-hash pipeline.
* `fetch`: result of `eth.TransactionByHash` (`none` = lookup error);
* `recover`: result of `c.signer.Sender(tx)` (`none` = recovery error);
* `freshId`: the allocation identity of the pointer returned by `tx.To()` —
  go-ethereum's `Transaction.To` returns a pointer to a *fresh copy* of the
  recipient, so this identity differs from every pre-existing pointer, in
  particular from `c.reciever`;
* `signOk` / `sendOk`: whether `types.SignNewTx` / `eth.SendTransaction`
  succeed. -/
structure HashEvent where
  fetch : Option Tx
  recover : Option Address
  freshId : Nat
  signOk : Bool
  sendOk : Bool
  deriving Repr, DecidableEq

/-- Outcome of the per-hash pipeline (lines 69–110). -/
inductive Outcome where
  | fetchFailed
  | contractCreation
  | recoverFailed
  | skipped
  | signFailed (r : LegacyTx)
  | sendFailed (r : LegacyTx)
  | replaced (r : LegacyTx)
  deriving Repr, DecidableEq

/-- The replacement transaction the pipeline constructed, if it reached the
construction step (lines 89–95); `none` when the hash was skipped earlier. -/
def Outcome.builtTx : Outcome → Option LegacyTx
  | .signFailed r => some r
  | .sendFailed r => some r
  | .replaced r => some r
  | _ => none

/-- The per-hash pipeline, the body of `case txHash := <-txChan` (lines
69–110), step for step:
1. `tx, _, err := c.eth.TransactionByHash(...)`; on error, `continue`;
2. `if tx.To() == nil { continue }`;
3. `from, err := c.signer.Sender(tx)`; on error, `continue`;
4. `if privateKey, ok := c.accounts[from]; ok && tx.To() != c.reciever` —
   NOTE: `tx.To() != c.reciever` compares two `*common.Address` POINTERS, so
   it compares allocation identities (`ev.freshId ≠ c.reciever.id`), never
   the address values; the bound recipient value `_dest` is not consulted;
5. build, sign and broadcast the replacement, each failure `continue`s. -/
def processHash (c : Chain) (ev : HashEvent) : Outcome :=
  match ev.fetch with
  | none => .fetchFailed
  | some tx =>
    match tx.To with
    | none => .contractCreation
    | some _dest =>
      match ev.recover with
      | none => .recoverFailed
      | some sender =>
        match c.accounts.lookup sender with
        | none => .skipped
        | some _privateKey =>
          if ev.freshId ≠ c.reciever.id then
            let r := buildReplacement c tx
            if ev.signOk then
              if ev.sendOk then .replaced r else .sendFailed r
            else .signFailed r
          else .skipped

/-- One event consumed by the `select` in the event loop of `ScanPending`:
either a subscription error from `sub.Err()` (payload abstracted to a number)
or a pending-transaction hash from `txChan` (carrying its oracle). -/
inductive PoolEvent where
  | subErr (e : Nat)
  | txHash (ev : HashEvent)
  deriving Repr, DecidableEq

/-- The event loop of `ScanPending` (lines 64–112) over a finite prefix of the
event stream.  Returns the successfully broadcast replacements in order and,
when a subscription error was consumed, that error (the loop's return value);
`none` means the prefix was exhausted with the loop still running. -/
def Chain.scanPending (c : Chain) : List PoolEvent → List LegacyTx × Option Nat
  | [] => ([], none)
  | .subErr e :: _ => ([], some e)
  | .txHash ev :: rest =>
    let out := processHash c ev
    let (txs, r) := Chain.scanPending c rest
    match out with
    | .replaced rt => (rt :: txs, r)
    | _ => (txs, r)

/-! ## Account registry loading and startup (`main`, lines 115–163) -/

/-- `strings.TrimPrefix(line, "0x")`: removes the leading `0x` marker from the
character list of the line when present, otherwise returns the line unchanged. -/
def TrimPrefix0x : List Char → List Char
  | '0' :: 'x' :: rest => rest
  | s => s

/-- Value of one hexadecimal digit, `none` for a non-hex character
(`encoding/hex` accepts `0-9`, `a-f`, `A-F`). -/
def hexDigitVal (ch : Char) : Option Nat :=
  if '0' ≤ ch ∧ ch ≤ '9' then some (ch.toNat - '0'.toNat)
  else if 'a' ≤ ch ∧ ch ≤ 'f' then some (ch.toNat - 'a'.toNat + 10)
  else if 'A' ≤ ch ∧ ch ≤ 'F' then some (ch.toNat - 'A'.toNat + 10)
  else none

/-- Big-endian hexadecimal string to number; `none` on the first non-hex
character (as `hex.DecodeString` fails there). -/
def hexToNatAux : List Char → Nat → Option Nat
  | [], acc => some acc
  | ch :: cs, acc =>
    match hexDigitVal ch with
    | none => none
    | some d => hexToNatAux cs (acc * 16 + d)

/-- The order of the secp256k1 group. -/
def secp256k1N : Nat :=
  0xFFFFFFFFFFFFFFFFFFFFFFFFFFFFFFFEBAAEDCE6AF48A03BBFD25E8CD0364141

/-- go-ethereum `crypto.HexToECDSA`: hex-decode the string — which must be
exactly 64 hex digits, i.e. 32 bytes, once the caller has stripped any `0x`
marker — then require the scalar to be a valid secp256k1 private key:
nonzero and below the group order. -/
def HexToECDSA (s : List Char) : Option PrivateKey :=
  if s.length = 64 then
    match hexToNatAux s 0 with
    | none => none
    | some k => if 0 < k ∧ k < secp256k1N then some k else none
  else none

/-- The account-loading loop of `main` (lines 151–161): for each line of
`accounts.txt`, strip the `0x` marker, parse with `HexToECDSA`; on error log
and `continue`, otherwise store the key under its derived address.
`PubkeyToAddress ∘ (·.PublicKey)` is the key-to-address derivation of the
crypto library, passed in abstractly. -/
def loadAccounts (pubkeyToAddress : PrivateKey → Address) (lines : List (List Char)) : Accounts :=
  lines.foldl (fun accounts line =>
    match HexToECDSA (TrimPrefix0x line) with
    | none => accounts
    | some privateKey => accounts.insert (pubkeyToAddress privateKey) privateKey) []

/-- `type Config struct { Reciever common.Address; Endpoints []string }`.
Endpoint URLs are abstracted to numbers. -/
structure Config where
  reciever : Address
  endpoints : List Nat
  deriving Repr, DecidableEq

/-- The zero value of `common.Address` (20 zero bytes). -/
def zeroAddress : Address := 0

/-- `var emtpyConfig Config` (line 126): the Go zero value — zero receiver
address and nil (hence empty) endpoint slice. -/
def emtpyConfig : Config := { reciever := zeroAddress, endpoints := [] }

/-- What `main` does before any monitor runs. -/
inductive StartupResult where
  | haltedWithTemplate (written : Config)
  | monitorsStarted (reciever : Address) (endpoints : List Nat) (accounts : Accounts)
  deriving Repr, DecidableEq

/-- The startup phase of `main` (lines 115–182): when `config.json` is absent,
write `emtpyConfig` as a template and `log.Fatal` — the process halts, no
endpoint is dialled and no transaction is processed; otherwise load the
account registry and start one monitor per configured endpoint. -/
def mainStartup (configFile : Option Config) (accountLines : List (List Char))
    (pubkeyToAddress : PrivateKey → Address) : StartupResult :=
  match configFile with
  | none => .haltedWithTemplate emtpyConfig
  | some config =>
    .monitorsStarted config.reciever config.endpoints
      (loadAccounts pubkeyToAddress accountLines)

/-! ## Concrete fixtures for witnesses and the counterexample -/

/-- A receiver pointer: allocation identity 0, address 9. -/
def recvPtr : Ptr Address := ⟨0, 9⟩

/-- A chain whose registry controls address 5 (key 77) and whose receiver is
address 9. -/
def chainW : Chain := { accounts := [(5, 77)], reciever := recvPtr }

/-- The end-to-end scenario of spec §8: sender 5 (controlled), destination
7 ≠ receiver, nonce 5, gas limit 21000, gas price 100, value 1000000. -/
def txW : Tx := { nonce := 5, gas := 21000, gasPrice := 100, value := 1000000, To := some 7 }

/-- Oracle for `txW`: fetched, sender 5 recovered, fresh pointer id 1,
signing and broadcast succeed. -/
def evW : HashEvent :=
  { fetch := some txW, recover := some 5, freshId := 1, signOk := true, sendOk := true }

/-- Same transaction but with value 1000, so the replacement value is
1000 − 11·21000 = −230000 < 0. -/
def txNeg : Tx := { txW with value := 1000 }

/-- Oracle for `txNeg`. -/
def evNeg : HashEvent := { evW with fetch := some txNeg }

/-- Cheap gas-price scenario: gas price 99 < 100, so the bump truncates to 0. -/
def txCheap : Tx := { txW with gasPrice := 99 }

/-- Oracle for `txCheap`. -/
def evCheap : HashEvent := { evW with fetch := some txCheap }

/-- A transaction already paying the receiver: destination 9 = receiver. -/
def txToRecv : Tx := { txW with To := some 9 }

/-- Oracle for `txToRecv`: still from controlled sender 5; `tx.To()` returns a
fresh pointer, allocation id 1 ≠ 0. -/
def evToRecv : HashEvent := { evW with fetch := some txToRecv }

/-- A 64-hex-digit private key line (value < secp256k1N, nonzero). -/
def validKeyLine : List Char :=
  List.replicate 64 '1'

/-- The malformed line of the spec scenario. -/
def badKeyLine : List Char :=
  ['n', 'o', 't', '-', 'a', '-', 'k', 'e', 'y']

/-! ## Helper lemmas -/

/-- Whenever the per-hash pipeline reaches the construction step, the
replacement it built is exactly `buildReplacement`, and when signing and
broadcast succeed the outcome is `replaced` with that transaction. -/
theorem processHash_builtTx_spec (c : Chain) (ev : HashEvent) (tx : Tx) (r : LegacyTx)
    (hfetch : ev.fetch = some tx)
    (hr : (processHash c ev).builtTx = some r) :
    r = buildReplacement c tx ∧
    (ev.signOk = true → ev.sendOk = true → processHash c ev = .replaced r) := by
  obtain ⟨fetch, recover, freshId, signOk, sendOk⟩ := ev
  simp only at hfetch
  subst hfetch
  rcases htx : tx.To with _ | dest
  · simp [processHash, htx, Outcome.builtTx] at hr
  · rcases recover with _ | sender
    · simp [processHash, htx, Outcome.builtTx] at hr
    · rcases hlk : c.accounts.lookup sender with _ | pk
      · simp [processHash, htx, hlk, Outcome.builtTx] at hr
      · by_cases hid : freshId = c.reciever.id
        · simp [processHash, htx, hlk, hid, Outcome.builtTx] at hr
        · cases signOk <;> cases sendOk <;>
            simp_all [processHash, htx, hlk, hid, Outcome.builtTx]

/-- An event whose fetch step fails. -/
def evFetchFail : HashEvent :=
  { fetch := none, recover := none, freshId := 1, signOk := true, sendOk := true }

/-- C2: for every observed transaction accepted for replacement with observed
gas price `g`, the replacement's gas price equals `g + (g / 100) * 11`
exactly, with truncating integer division. -/
theorem replacement_gasPrice_bump (c : Chain) (ev : HashEvent) (tx : Tx) (r : LegacyTx)
    (hfetch : ev.fetch = some tx)
    (hr : (processHash c ev).builtTx = some r) :
    r.gasPrice = tx.gasPrice + (tx.gasPrice / 100) * 11 := by
  obtain ⟨hb, -⟩ := processHash_builtTx_spec c ev tx r hfetch hr
  subst hb
  simp [buildReplacement, Nat.add_comm]

/-- Witness for C2: the spec §8 end-to-end scenario, gas price 100, bump 11. -/
theorem replacement_gasPrice_bump_witness :
    (processHash chainW evW).builtTx = some (buildReplacement chainW txW) ∧
    (buildReplacement chainW txW).gasPrice = 100 + (100 / 100) * 11 :=
  ⟨by decide, replacement_gasPrice_bump chainW evW txW (buildReplacement chainW txW)
    rfl (by decide)⟩

/-- C3: for every observed transaction accepted for replacement with observed
gas price `g`, gas limit `l` and value `v`, the replacement's value equals
`v − ((g / 100) * 11) * l` exactly; no floor or guard is applied, and —
negative or not — the pipeline proceeds to sign and broadcast: when signing
and broadcast succeed, the outcome is `replaced`. -/
theorem replacement_value_formula (c : Chain) (ev : HashEvent) (tx : Tx) (r : LegacyTx)
    (hfetch : ev.fetch = some tx)
    (hr : (processHash c ev).builtTx = some r) :
    r.value = (tx.value : Int) - (((tx.gasPrice / 100) * 11) * tx.gas : Nat) ∧
    (ev.signOk = true → ev.sendOk = true → processHash c ev = .replaced r) := by
  obtain ⟨hb, hrep⟩ := processHash_builtTx_spec c ev tx r hfetch hr
  subst hb
  exact ⟨rfl, hrep⟩

/-- Witness for C3: value 1000, fees 231000, replacement value −230000 < 0,
still signed and broadcast (`replaced`). -/
theorem replacement_value_formula_witness :
    ((buildReplacement chainW txNeg).value =
        (txNeg.value : Int) - (((txNeg.gasPrice / 100) * 11) * txNeg.gas : Nat) ∧
      (evNeg.signOk = true → evNeg.sendOk = true →
        processHash chainW evNeg = .replaced (buildReplacement chainW txNeg))) ∧
    (buildReplacement chainW txNeg).value < 0 ∧
    processHash chainW evNeg = .replaced (buildReplacement chainW txNeg) := by
  have h := replacement_value_formula chainW evNeg txNeg (buildReplacement chainW txNeg)
    rfl (by decide)
  exact ⟨h, by decide, h.2 rfl rfl⟩

/-- C4: for every observed transaction accepted for replacement, the
replacement's nonce and gas limit equal the observed transaction's, and its
destination is the configured receiver address. -/
theorem replacement_preserves_nonce_gas_dest (c : Chain) (ev : HashEvent) (tx : Tx)
    (r : LegacyTx) (hfetch : ev.fetch = some tx)
    (hr : (processHash c ev).builtTx = some r) :
    r.nonce = tx.nonce ∧ r.gas = tx.gas ∧ r.To = some c.reciever.val := by
  obtain ⟨hb, -⟩ := processHash_builtTx_spec c ev tx r hfetch hr
  subst hb
  exact ⟨rfl, rfl, rfl⟩

/-- Witness for C4: spec §8 scenario — nonce 5, gas 21000, destination 9. -/
theorem replacement_preserves_nonce_gas_dest_witness :
    (buildReplacement chainW txW).nonce = txW.nonce ∧
    (buildReplacement chainW txW).gas = txW.gas ∧
    (buildReplacement chainW txW).To = some chainW.reciever.val :=
  replacement_preserves_nonce_gas_dest chainW evW txW (buildReplacement chainW txW)
    rfl (by decide)

/-- C10: when the observed gas price is below 100, the truncating bump
`(g / 100) * 11` is 0, so the replacement's gas price equals the observed gas
price and its value equals the observed value. -/
theorem small_gasPrice_no_bump (c : Chain) (ev : HashEvent) (tx : Tx) (r : LegacyTx)
    (hfetch : ev.fetch = some tx)
    (hr : (processHash c ev).builtTx = some r)
    (hlt : tx.gasPrice < 100) :
    r.gasPrice = tx.gasPrice ∧ r.value = (tx.value : Int) := by
  obtain ⟨hb, -⟩ := processHash_builtTx_spec c ev tx r hfetch hr
  subst hb
  have h0 : tx.gasPrice / 100 = 0 := Nat.div_eq_of_lt hlt
  simp [buildReplacement, h0]

/-- Witness for C10: gas price 99 — the replacement keeps gas price 99 and the
observed value. -/
theorem small_gasPrice_no_bump_witness :
    (buildReplacement chainW txCheap).gasPrice = txCheap.gasPrice ∧
    (buildReplacement chainW txCheap).value = (txCheap.value : Int) :=
  small_gasPrice_no_bump chainW evCheap txCheap (buildReplacement chainW txCheap)
    rfl (by decide) (by decide)

/-- C5: when the recovered sender is not a key of the account registry, the
pipeline never reaches the construction step — no replacement is built. -/
theorem uncontrolled_sender_no_replacement (c : Chain) (ev : HashEvent) (tx : Tx)
    (sender : Address) (hfetch : ev.fetch = some tx) (hrec : ev.recover = some sender)
    (habs : c.accounts.lookup sender = none) :
    (processHash c ev).builtTx = none := by
  obtain ⟨fetch, recover, freshId, signOk, sendOk⟩ := ev
  simp only at hfetch hrec
  subst hfetch
  subst hrec
  rcases htx : tx.To with _ | dest <;>
    simp [processHash, htx, habs, Outcome.builtTx]

/-- Witness for C5: sender 6 is not in the registry `[(5, 77)]`. -/
theorem uncontrolled_sender_no_replacement_witness :
    (processHash chainW { evW with recover := some 6 }).builtTx = none :=
  uncontrolled_sender_no_replacement chainW { evW with recover := some 6 } txW 6
    rfl rfl (by decide)

/-- C6: a fetched transaction with no destination (`tx.To() == nil`, contract
creation) is skipped before sender recovery: the outcome is
`contractCreation` whatever the recovery oracle answers and whatever the
registry contains, so no recovery result or registry entry is consulted and
no replacement is constructed. -/
theorem contract_creation_skipped (c : Chain) (ev : HashEvent) (tx : Tx)
    (hfetch : ev.fetch = some tx) (hto : tx.To = none) :
    processHash c ev = .contractCreation ∧
    ∀ (accounts2 : Accounts) (recover2 : Option Address),
      processHash { c with accounts := accounts2 } { ev with recover := recover2 } =
        .contractCreation := by
  constructor
  · simp [processHash, hfetch, hto]
  · intro accounts2 recover2
    simp [processHash, hfetch, hto]

/-- Witness for C6: a contract-creation transaction in the spec §8 setting. -/
theorem contract_creation_skipped_witness :
    processHash chainW { evW with fetch := some { txW with To := none } } =
      .contractCreation ∧
    ∀ (accounts2 : Accounts) (recover2 : Option Address),
      processHash { chainW with accounts := accounts2 }
          { evW with fetch := some { txW with To := none }, recover := recover2 } =
        .contractCreation :=
  contract_creation_skipped chainW { evW with fetch := some { txW with To := none } }
    { txW with To := none } rfl rfl

/-- C9: in the event loop, a subscription error terminates the loop at once
and becomes `ScanPending`'s result (nothing after it is consumed), while a
hash whose pipeline does not reach a successful broadcast — any per-hash
failure — changes nothing: the loop's behaviour on the remaining events is
identical. -/
theorem subErr_fatal_hash_failure_nonfatal (c : Chain) (e : Nat) (ev : HashEvent)
    (rest : List PoolEvent)
    (hfail : ∀ r, processHash c ev ≠ Outcome.replaced r) :
    Chain.scanPending c (.subErr e :: rest) = ([], some e) ∧
    Chain.scanPending c (.txHash ev :: rest) = Chain.scanPending c rest := by
  refine ⟨rfl, ?_⟩
  simp only [Chain.scanPending]

/-- Witness for C9: a failed fetch is non-fatal and the loop then consumes a
subscription error, returning it. -/
theorem subErr_fatal_hash_failure_nonfatal_witness :
    Chain.scanPending chainW [.subErr 3, .subErr 3] = ([], some 3) ∧
    Chain.scanPending chainW (.txHash evFetchFail :: [.subErr 3, .subErr 3]) =
      Chain.scanPending chainW [.subErr 3, .subErr 3] :=
  subErr_fatal_hash_failure_nonfatal chainW 3 evFetchFail [.subErr 3, .subErr 3]
    (fun _ h => nomatch h)

/-- C7: a line that fails to parse as a hex private key is skipped and every
later line is loaded exactly as if the bad line were absent; on the spec
scenario — the line `not-a-key` followed by one valid 64-hex-digit key — the
registry ends with exactly one entry. -/
theorem malformed_key_line_skipped (pubkeyToAddress : PrivateKey → Address)
    (bad : List Char) (rest : List (List Char))
    (hbad : HexToECDSA (TrimPrefix0x bad) = none) :
    loadAccounts pubkeyToAddress (bad :: rest) = loadAccounts pubkeyToAddress rest ∧
    (loadAccounts pubkeyToAddress [badKeyLine, validKeyLine]).length = 1 := by
  constructor
  · simp [loadAccounts, hbad]
  · have h1 : HexToECDSA (TrimPrefix0x badKeyLine) = none := by decide
    rcases h2 : HexToECDSA (TrimPrefix0x validKeyLine) with _ | k
    · exact absurd h2 (by decide)
    · simp [loadAccounts, h1, h2, Accounts.insert]

/-- Witness for C7: the spec scenario itself, with identity key-to-address
derivation. -/
theorem malformed_key_line_skipped_witness :
    loadAccounts (fun k => k) (badKeyLine :: [validKeyLine]) =
      loadAccounts (fun k => k) [validKeyLine] ∧
    (loadAccounts (fun k => k) [badKeyLine, validKeyLine]).length = 1 :=
  malformed_key_line_skipped (fun k => k) badKeyLine [validKeyLine] (by decide)

/-- C8: when `config.json` is absent, `main` writes the template
`emtpyConfig` — receiver the zero address, endpoints the empty sequence —
and halts: no monitor is started, no endpoint dialled, no transaction
processed. -/
theorem missing_config_writes_template_and_halts
    (accountLines : List (List Char)) (pubkeyToAddress : PrivateKey → Address) :
    mainStartup none accountLines pubkeyToAddress = .haltedWithTemplate emtpyConfig ∧
    emtpyConfig.reciever = zeroAddress ∧ emtpyConfig.endpoints = [] :=
  ⟨rfl, rfl, rfl⟩

/-- C1 FAILS on the code: line 85's guard `tx.To() != c.reciever` compares two
`*common.Address` POINTERS — and `Transaction.To()` returns a freshly
allocated copy, so the comparison is always true.  Here the observed
transaction's destination (address 9) already equals the configured
receiver, its sender (5) is controlled, and the pipeline still constructs,
signs and broadcasts a replacement, contradicting the claim that no
replacement is constructed in this situation. -/
theorem receiver_destination_still_replaced :
    txToRecv.To = some chainW.reciever.val ∧
    processHash chainW evToRecv = .replaced (buildReplacement chainW txToRecv) ∧
    (processHash chainW evToRecv).builtTx ≠ none := by
  refine ⟨rfl, by decide, by decide⟩
